import Mathlib

/-!
Verification of the Daily Log Lifecycle Engine of the SIWES logbook
application (services `log.py`, `sync.py`, `review.py`, `geofence.py`,
repositories `base.py`, `log.py`, `placement.py`, and the SQLAlchemy
models `domain/models/log.py`, `domain/models/placement.py`).

The embedding is a faithful shallow translation of the Python source:

* SQLAlchemy rows become Lean structures carrying exactly the mapped
  columns of the corresponding model class.
* The database session becomes an explicit store (a list of rows)
  threaded through every service operation.
* Python floats for coordinates become rationals; `datetime.date` and
  `datetime.datetime` values become integers (day ordinals / ticks);
  the wall clock read by `datetime.utcnow()` becomes an explicit
  parameter `now`.
* Python exceptions become an explicit `PyError` sum; an operation that
  can raise returns `Store × Except PyError α` so that the state at the
  moment of the raise stays observable.

A central fact about this repository, which several theorems below
exercise, is that the service layer was written against attribute names
that the SQLAlchemy models do not define (the seeding script
`seed_db.py` even notes "only fields that exist in the model" when it
carefully avoids them).  Where the Python source reads a missing
attribute the embedding raises `PyError.attributeError`, mirroring
CPython semantics; each such site carries a comment pointing at the
model definition that lacks the attribute.
-/

/-- Python exception values raised by the engine, tagged by kind.
`str_of_error` below renders them the way `str(e)` is used in the
error-collecting loops (for `keyError` CPython would additionally quote
the key; the quotes are dropped here). -/
inductive PyError where
  | valueError (msg : String)
  | attributeError (msg : String)
  | typeError (msg : String)
  | keyError (key : String)
deriving Repr, DecidableEq

/-- Rendering of an exception by the f-strings in `sync.py` line 120 and
`review.py` line 209. -/
def str_of_error : PyError → String
  | .valueError m => m
  | .attributeError m => m
  | .typeError m => m
  | .keyError k => k

/-- Enum `LogStatus` of `domain/models/log.py` lines 20-35. -/
inductive LogStatus where
  | draft
  | pending_review
  | verified
  | flagged
deriving Repr, DecidableEq

/-- Enum `LocationStatus` of `domain/models/log.py` lines 38-51. -/
inductive LocationStatus where
  | within
  | outside
  | unknown
deriving Repr, DecidableEq

/-- Model `Geofence` of `domain/models/placement.py` lines 91-154.  Its
mapped columns are exactly `id`, `latitude`, `longitude`,
`radius_meters` (plus the `TimestampMixin` bookkeeping timestamps,
which the engine never reads and which are omitted).  Note that the
model does NOT define `center_latitude` or `center_longitude`. -/
structure Geofence where
  id : String
  latitude : ℚ
  longitude : ℚ
  radius_meters : Int
deriving Repr, DecidableEq

/-- Model `IndustrialPlacement` of `domain/models/placement.py` lines
16-88.  Mapped columns: `id`, `company_name`, `address`,
`supervisor_contact`, `geofence_id`; relationship `geofence`.  The
model does NOT define `start_date`, `end_date` or `deleted_at` (it
inherits `TimestampMixin` only, not `SoftDeleteMixin`). -/
structure IndustrialPlacement where
  id : String
  company_name : String
  address : String
  supervisor_contact : Option String
  geofence_id : String
  geofence : Option Geofence
deriving Repr, DecidableEq

/-- Model `DailyLog` of `domain/models/log.py` lines 54-225.  Mapped
columns, in source order: `id`, `client_uuid` (unique, not null),
`student_id`, `placement_id`, `log_date`, `week_number`,
`activity_description`, `latitude`, `longitude`,
`distance_from_geofence`, `location_status`, `status`,
`created_offline_at`, `synced_at`, `reviewed_at`, `reviewer_id`,
`reviewer_comment` (the `TimestampMixin` timestamps are omitted).  The
model does NOT define `activities`, `skills_learned`, `challenges`,
`is_synced`, `reviewed_by` or `supervisor_feedback`. -/
structure DailyLog where
  id : String
  client_uuid : String
  student_id : String
  placement_id : String
  log_date : Int
  week_number : Int
  activity_description : String
  latitude : Option ℚ
  longitude : Option ℚ
  distance_from_geofence : Option ℚ
  location_status : LocationStatus
  status : LogStatus
  created_offline_at : Option Int
  synced_at : Option Int
  reviewed_at : Option Int
  reviewer_id : Option String
  reviewer_comment : Option String
deriving Repr, DecidableEq

/-- The set of persisted `daily_logs` rows, in insertion order. -/
abbrev Store := List DailyLog

/-- Truthiness of an optional string, as used by `if client_uuid:` in
`log.py` line 102 and `sync.py` line 90 (`None` and the empty string
are falsy). -/
def py_truthy : Option String → Bool
  | none => false
  | some s => s ≠ ""

/-- Method `GeofenceService.validate_coordinates` of
`infrastructure/services/geofence.py` lines 227-252. -/
def validate_coordinates (latitude longitude : ℚ) : Bool :=
  if ¬(-90 ≤ latitude ∧ latitude ≤ 90) then false
  else if ¬(-180 ≤ longitude ∧ longitude ≤ 180) then false
  else true

/-- Method `GeofenceService.is_within_geofence` of
`infrastructure/services/geofence.py` lines 99-142.  After the
`if not geofence` guard the source evaluates
`self.calculate_distance(lat1=latitude, lon1=longitude,
lat2=geofence.center_latitude, lon2=geofence.center_longitude)`.
The `Geofence` model (placement.py lines 127-147) maps only
`latitude`, `longitude` and `radius_meters`, so the read of
`geofence.center_latitude` raises `AttributeError` before the
haversine distance or the `distance <= geofence.radius_meters`
comparison is ever reached. -/
def is_within_geofence (latitude longitude : ℚ) (geofence : Option Geofence) :
    Except PyError Bool :=
  match geofence with
  | none => .ok false
  | some _ => .error (.attributeError "Geofence object has no attribute center_latitude")

/-- Method `GeofenceService.get_location_status` of
`infrastructure/services/geofence.py` lines 144-185: sentinel (0, 0)
first, then missing geofence, then delegation to
`is_within_geofence`. -/
def get_location_status (latitude longitude : ℚ) (geofence : Option Geofence) :
    Except PyError LocationStatus :=
  if latitude = 0 ∧ longitude = 0 then .ok .unknown
  else match geofence with
  | none => .ok .unknown
  | some g =>
    match is_within_geofence latitude longitude (some g) with
    | .error e => .error e
    | .ok true => .ok .within
    | .ok false => .ok .outside

/-- Method `LogService._calculate_week_number` of
`application/services/log.py` lines 287-309.  The source computes
`(log_date - placement.start_date).days // 7 + 1`, but
`IndustrialPlacement` (placement.py lines 48-77) maps no `start_date`
column (the program start date lives on `StudentProfile.siwes_start_date`
in `domain/models/user.py`), so the attribute read raises
`AttributeError` before any arithmetic happens. -/
def calculate_week_number (log_date : Option Int) (placement : IndustrialPlacement) :
    Except PyError Int :=
  let _ := log_date
  let _ := placement
  .error (.attributeError "IndustrialPlacement object has no attribute start_date")

/-- Method `LogRepository.get_by_client_uuid` of
`infrastructure/repositories/log.py` lines 185-201: the first stored
row whose `client_uuid` column equals the given token.  The filter is
keyed by the token alone; no `student_id` condition appears in the
query. -/
def get_by_client_uuid (store : Store) (client_uuid : String) : Option DailyLog :=
  store.find? (fun l => l.client_uuid == client_uuid)

/-- Method `BaseRepository.get_by_id` of
`infrastructure/repositories/base.py` lines 84-107, specialised to
`DailyLog`: the first row with the given primary key.  The
soft-delete filter is skipped because
`hasattr(DailyLog, "deleted_at")` is false (log.py maps no such
column). -/
def get_by_id (store : Store) (id : String) : Option DailyLog :=
  store.find? (fun l => l.id == id)

/-- Keys of the update dictionaries the engine passes to
`BaseRepository.update`: `review.py` lines 86-91, 132-137, 165-169
build `status` / `reviewed_by` / `reviewed_at` / `supervisor_feedback`
entries, and callers of `LogService.update_log` supply content keys
such as `activity_description` or `activities`. -/
inductive UpdateKV where
  | status (v : LogStatus)
  | reviewed_by (v : String)
  | reviewed_at (v : Int)
  | supervisor_feedback (v : Option String)
  | activity_description (v : String)
  | activities (v : String)
deriving Repr, DecidableEq

/-- One iteration of the loop in `BaseRepository.update`
(`infrastructure/repositories/base.py` lines 177-179):
`if hasattr(instance, key): setattr(instance, key, value)`.
Against the `DailyLog` model, `hasattr` holds for `status`,
`reviewed_at` and `activity_description`, but NOT for `reviewed_by`,
`supervisor_feedback` or `activities` (log.py maps `reviewer_id` and
`reviewer_comment` instead), so those keys are silently dropped. -/
def setattr_ifhas (log : DailyLog) : UpdateKV → DailyLog
  | .status v => { log with status := v }
  | .reviewed_at v => { log with reviewed_at := some v }
  | .activity_description v => { log with activity_description := v }
  | .reviewed_by _ => log
  | .supervisor_feedback _ => log
  | .activities _ => log

/-- Method `BaseRepository.update` of
`infrastructure/repositories/base.py` lines 153-183, specialised to
`DailyLog`: fetch by id (`None` if absent), apply the `hasattr`-guarded
`setattr` loop, and return the mutated instance.  Mutation of the
session-held row is modelled by replacing the row with that id in the
store. -/
def log_repo_update (store : Store) (id : String) (data : List UpdateKV) :
    Store × Option DailyLog :=
  match get_by_id store id with
  | none => (store, none)
  | some inst =>
    let updated := data.foldl setattr_ifhas inst
    ((store.map fun l => if l.id == id then updated else l), some updated)

/-- Method `PlacementRepository.get_placement_with_geofence` of
`infrastructure/repositories/placement.py` lines 98-120.  The query it
builds filters on `IndustrialPlacement.deleted_at.is_(None)` (line
119), but `IndustrialPlacement` (placement.py lines 16-88) inherits
only `TimestampMixin` and maps no `deleted_at` column, so the
class-attribute read raises `AttributeError` on every call, before the
query runs. -/
def get_placement_with_geofence (placements : List IndustrialPlacement)
    (placement_id : String) : Except PyError (Option IndustrialPlacement) :=
  let _ := placements
  let _ := placement_id
  .error (.attributeError "type object IndustrialPlacement has no attribute deleted_at")

/-- Dictionary literal `log_data` of `LogService.create_log`
(`application/services/log.py` lines 131-145), in source key order. -/
structure LogData where
  student_id : String
  placement_id : String
  log_date : Option Int
  week_number : Int
  activities : String
  skills_learned : Option String
  challenges : Option String
  latitude : ℚ
  longitude : ℚ
  location_status : LocationStatus
  status : LogStatus
  is_synced : Bool
  client_uuid : Option String
deriving Repr, DecidableEq

/-- Call `self.model(**data)` performed by `BaseRepository.create`
(`infrastructure/repositories/base.py` line 78) on the `log_data`
dictionary above.  The SQLAlchemy declarative constructor raises
`TypeError` on the first keyword that is not a mapped attribute of
`DailyLog`; iterating the dictionary in insertion order, that first
invalid key is `activities` (log.py maps `activity_description`, and
also has no `skills_learned`, `challenges` or `is_synced`), so no
`DailyLog` instance is ever constructed from this dictionary. -/
def dailyLog_ctor (data : LogData) : Except PyError DailyLog :=
  let _ := data
  .error (.typeError "activities is an invalid keyword argument for DailyLog")

/-- Method `LogService.create_log` of `application/services/log.py`
lines 60-150, after the idempotency check: placement lookup, coordinate
validation, week-number computation and range check, location
classification, then persistence via `BaseRepository.create`.  Each
raise leaves the store exactly as it was. -/
def create_log_fresh (placements : List IndustrialPlacement) (store : Store)
    (student_id placement_id : String) (log_date : Option Int) (activities : String)
    (latitude longitude : ℚ) (client_uuid : Option String)
    (skills_learned challenges : Option String) : Store × Except PyError DailyLog :=
  match get_placement_with_geofence placements placement_id with
  | .error e => (store, .error e)
  | .ok none => (store, .error (.valueError "Placement not found"))
  | .ok (some placement) =>
    if validate_coordinates latitude longitude = false then
      (store, .error (.valueError "Invalid GPS coordinates"))
    else
      match calculate_week_number log_date placement with
      | .error e => (store, .error e)
      | .ok week_number =>
        if week_number < 1 ∨ week_number > 25 then
          (store, .error (.valueError "Log date is outside SIWES period"))
        else
          match get_location_status latitude longitude placement.geofence with
          | .error e => (store, .error e)
          | .ok location_status =>
            match dailyLog_ctor
                { student_id, placement_id, log_date, week_number, activities,
                  skills_learned, challenges, latitude, longitude, location_status,
                  status := .pending_review,
                  is_synced := !(py_truthy client_uuid), client_uuid } with
            | .error e => (store, .error e)
            | .ok log => (store ++ [log], .ok log)

/-- Method `LogService.create_log` of `application/services/log.py`
lines 60-150.  Lines 101-105: when a truthy `client_uuid` is supplied
and a row with that token already exists, the existing row is returned
unchanged and nothing else runs. -/
def create_log (placements : List IndustrialPlacement) (store : Store)
    (student_id placement_id : String) (log_date : Option Int) (activities : String)
    (latitude longitude : ℚ) (client_uuid : Option String)
    (skills_learned challenges : Option String) : Store × Except PyError DailyLog :=
  if py_truthy client_uuid then
    match get_by_client_uuid store (client_uuid.getD "") with
    | some existing_log => (store, .ok existing_log)
    | none =>
      create_log_fresh placements store student_id placement_id log_date activities
        latitude longitude client_uuid skills_learned challenges
  else
    create_log_fresh placements store student_id placement_id log_date activities
      latitude longitude client_uuid skills_learned challenges

/-- One offline log dictionary handed to `SyncService.sync_logs`
(`application/services/sync.py` lines 49-127).  A `none` field stands
for an absent dictionary key.  The `date.fromisoformat` branch for
string-valued `log_date` (sync.py lines 97-101) is not modelled: dates
are taken as `date` objects, which that branch passes through
unchanged. -/
structure OfflineLog where
  client_uuid : Option String
  placement_id : Option String
  log_date : Option Int
  activities : Option String
  latitude : Option ℚ
  longitude : Option ℚ
  skills_learned : Option String
  challenges : Option String
deriving Repr, DecidableEq

/-- Result dictionary of `SyncService.sync_logs`. -/
structure SyncResult where
  synced : Nat
  skipped : Nat
  failed : Nat
  errors : List String
deriving Repr, DecidableEq

/-- Subscript access `log_data[key]` used when building the
`create_log` call in `sync.py` lines 104-114: raises `KeyError` when
the key is absent.  The keyword arguments are evaluated in source
order `placement_id`, `activities`, `latitude`, `longitude`. -/
def sync_required_args (log_data : OfflineLog) :
    Except PyError (String × String × ℚ × ℚ) :=
  match log_data.placement_id with
  | none => .error (.keyError "placement_id")
  | some pid =>
    match log_data.activities with
    | none => .error (.keyError "activities")
    | some act =>
      match log_data.latitude with
      | none => .error (.keyError "latitude")
      | some lat =>
        match log_data.longitude with
        | none => .error (.keyError "longitude")
        | some lon => .ok (pid, act, lat, lon)

/-- Error message appended by `sync.py` line 120:
`f"Failed to sync log {uuid or unknown}: {e}"` via
`log_data.get("client_uuid", "unknown")`. -/
def sync_error_msg (log_data : OfflineLog) (e : PyError) : String :=
  "Failed to sync log " ++ (match log_data.client_uuid with
    | some s => s
    | none => "unknown") ++ ": " ++ str_of_error e

/-- One iteration of the `for log_data in offline_logs` loop of
`SyncService.sync_logs` (`application/services/sync.py` lines 85-120):
skip when a truthy token already exists, otherwise delegate to
`LogService.create_log`; any raise increments `failed` and appends a
message, never aborting the loop. -/
def sync_step (placements : List IndustrialPlacement) (student_id : String)
    (acc : Store × SyncResult) (log_data : OfflineLog) : Store × SyncResult :=
  let store := acc.1
  let r := acc.2
  let fresh : Store × SyncResult :=
    match sync_required_args log_data with
    | .error e =>
      (store, { r with failed := r.failed + 1,
                       errors := r.errors ++ [sync_error_msg log_data e] })
    | .ok (pid, act, lat, lon) =>
      match create_log placements store student_id pid log_data.log_date act lat lon
          log_data.client_uuid log_data.skills_learned log_data.challenges with
      | (store2, .ok _) => (store2, { r with synced := r.synced + 1 })
      | (store2, .error e) =>
        (store2, { r with failed := r.failed + 1,
                          errors := r.errors ++ [sync_error_msg log_data e] })
  if py_truthy log_data.client_uuid then
    match get_by_client_uuid store (log_data.client_uuid.getD "") with
    | some _ => (store, { r with skipped := r.skipped + 1 })
    | none => fresh
  else fresh

/-- Method `SyncService.sync_logs` of `application/services/sync.py`
lines 49-127: the per-entry step folded over the batch in input
order, starting from zero counters. -/
def sync_logs (placements : List IndustrialPlacement) (store : Store)
    (student_id : String) (offline_logs : List OfflineLog) : Store × SyncResult :=
  offline_logs.foldl (sync_step placements student_id) (store, ⟨0, 0, 0, []⟩)

/-- Method `ReviewService.verify_log` of
`application/services/review.py` lines 46-93: `None` when the id is
unknown; `ValueError` when the row is already verified or is flagged;
otherwise the update dictionary with keys `status`, `reviewed_by`,
`reviewed_at`, `supervisor_feedback` is applied through
`BaseRepository.update`. -/
def verify_log (store : Store) (log_id supervisor_id : String)
    (feedback : Option String) (now : Int) : Store × Except PyError (Option DailyLog) :=
  match get_by_id store log_id with
  | none => (store, .ok none)
  | some log =>
    if log.status = .verified then
      (store, .error (.valueError "Log is already verified"))
    else if log.status = .flagged then
      (store, .error (.valueError "Cannot verify a flagged log. Unflag it first."))
    else
      let (store2, res) := log_repo_update store log_id
        [.status .verified, .reviewed_by supervisor_id, .reviewed_at now,
         .supervisor_feedback feedback]
      (store2, .ok res)

/-- Method `ReviewService.flag_log` of `application/services/review.py`
lines 95-139: `None` when the id is unknown; `ValueError` only when the
row is already verified. -/
def flag_log (store : Store) (log_id supervisor_id : String)
    (reason : String) (now : Int) : Store × Except PyError (Option DailyLog) :=
  match get_by_id store log_id with
  | none => (store, .ok none)
  | some log =>
    if log.status = .verified then
      (store, .error (.valueError "Cannot flag a verified log"))
    else
      let (store2, res) := log_repo_update store log_id
        [.status .flagged, .reviewed_by supervisor_id, .reviewed_at now,
         .supervisor_feedback (some reason)]
      (store2, .ok res)

/-- Method `ReviewService.unflag_log` of
`application/services/review.py` lines 141-171: `None` when the id is
unknown; otherwise the status is set back to `PENDING_REVIEW`
unconditionally — the source performs no check of the current
status. -/
def unflag_log (store : Store) (log_id supervisor_id : String)
    (now : Int) : Store × Except PyError (Option DailyLog) :=
  match get_by_id store log_id with
  | none => (store, .ok none)
  | some _ =>
    let (store2, res) := log_repo_update store log_id
      [.status .pending_review, .reviewed_by supervisor_id, .reviewed_at now]
    (store2, .ok res)

/-- Method `LogService.update_log` of `application/services/log.py`
lines 209-243: `None` when the id is unknown; `ValueError` when the row
is verified; otherwise the caller-supplied updates go through
`BaseRepository.update`. -/
def update_log (store : Store) (log_id : String) (updates : List UpdateKV) :
    Store × Except PyError (Option DailyLog) :=
  match get_by_id store log_id with
  | none => (store, .ok none)
  | some log =>
    if log.status = .verified then
      (store, .error (.valueError "Cannot update a verified log"))
    else
      let (store2, res) := log_repo_update store log_id updates
      (store2, .ok res)

/-- Result dictionary of `ReviewService.bulk_verify_logs`. -/
structure BulkResult where
  verified : Nat
  failed : Nat
  errors : List String
deriving Repr, DecidableEq

/-- One iteration of the loop in `ReviewService.bulk_verify_logs`
(`application/services/review.py` lines 203-209): the return value of
`verify_log` is discarded, so a `None` (missing id) counts as a
success; only a raise increments `failed`. -/
def bulk_step (supervisor_id : String) (feedback : Option String) (now : Int)
    (acc : Store × BulkResult) (log_id : String) : Store × BulkResult :=
  let r := acc.2
  match verify_log acc.1 log_id supervisor_id feedback now with
  | (store2, .ok _) => (store2, { r with verified := r.verified + 1 })
  | (store2, .error e) =>
    (store2, { r with failed := r.failed + 1,
                      errors := r.errors ++
                        ["Failed to verify log " ++ log_id ++ ": " ++ str_of_error e] })

/-- Method `ReviewService.bulk_verify_logs` of
`application/services/review.py` lines 173-215. -/
def bulk_verify_logs (store : Store) (log_ids : List String) (supervisor_id : String)
    (feedback : Option String) (now : Int) : Store × BulkResult :=
  log_ids.foldl (bulk_step supervisor_id feedback now) (store, ⟨0, 0, []⟩)

/-- Uniqueness of the `client_uuid` column across the stored rows, as
enforced by the schema (`unique=True` on `DailyLog.client_uuid`,
log.py lines 117-123). -/
abbrev client_uuid_unique (store : Store) : Prop :=
  ∀ a ∈ store, ∀ b ∈ store, a.client_uuid = b.client_uuid → a = b

/-- An id for which `ReviewService.verify_log` raises: the stored row
exists and is already verified or is flagged.  A missing id is NOT
rejectable (verify_log returns `None` for it). -/
def rejectable (store : Store) (id : String) : Bool :=
  match get_by_id store id with
  | some l => l.status == LogStatus.verified || l.status == LogStatus.flagged
  | none => false

/-- Sample geofence row (500 m radius), as in the seeding script. -/
def gf1 : Geofence := ⟨"G1", 6, 3, 500⟩

/-- Sample placement row owning `gf1`. -/
def placement1 : IndustrialPlacement :=
  ⟨"P1", "Tech Solutions Ltd", "123 Innovation Drive", some "sup@tech.example", "G1", some gf1⟩

/-- Sample stored row builder for the concrete evaluations below. -/
def mkLog (id client_uuid student_id : String) (status : LogStatus) : DailyLog :=
  { id, client_uuid, student_id, placement_id := "P1", log_date := 10,
    week_number := 1, activity_description := "worked on project",
    latitude := some 6, longitude := some 3, distance_from_geofence := none,
    location_status := .within, status, created_offline_at := none,
    synced_at := none, reviewed_at := none, reviewer_id := none,
    reviewer_comment := none }

/-- Offline entry with a token, valid-looking fields. -/
def offlineOk : OfflineLog :=
  { client_uuid := some "T1", placement_id := some "P1", log_date := some 10,
    activities := some "worked on project", latitude := some 6, longitude := some 3,
    skills_learned := none, challenges := none }

/-- Offline entry without a token and with the `activities` key
missing, so that building the `create_log` call raises `KeyError`. -/
def offlineBad : OfflineLog :=
  { client_uuid := none, placement_id := some "P1", log_date := some 11,
    activities := none, latitude := some 6, longitude := some 3,
    skills_learned := none, challenges := none }

/-- Verified row used to probe the review lifecycle. -/
def vlogC2 : DailyLog := mkLog "L2" "T2" "S1" .verified

/-- Pending row used to probe audit recording. -/
def plogC5 : DailyLog := mkLog "L5" "T5" "S1" .pending_review

/-- Row of student STUD-A used to probe cross-student token replay. -/
def logC9 : DailyLog := mkLog "L9" "T9" "STUD-A" .pending_review

/-- Offline entry of a second student reusing token T9. -/
def odC9 : OfflineLog :=
  { client_uuid := some "T9", placement_id := some "P1", log_date := some 12,
    activities := some "different work", latitude := some 6, longitude := some 3,
    skills_learned := none, challenges := none }

/-- Store used to exercise bulk verification: one verified row, one
pending row (and ids of missing rows probed on top of it). -/
def storeC10 : Store := [mkLog "V1" "TV" "S1" .verified, mkLog "P2" "TP" "S1" .pending_review]

/-! Helper lemmas. -/

/-- Replacing rows of a given id by a row carrying that same id does
not change the result of a lookup for a different id. -/
theorem find?_map_replace (updated : DailyLog) (id id2 : String)
    (hid : updated.id = id) (hne : id2 ≠ id) (store : Store) :
    (store.map fun l => if l.id == id then updated else l).find? (fun l => l.id == id2)
      = store.find? (fun l => l.id == id2) := by
  induction store with
  | nil => rfl
  | cons a rest ih =>
    by_cases ha : a.id = id
    · have h2 : (a.id == id) = true := by simp [ha]
      have hnot : (a.id == id2) = true → False := by
        intro h
        exact hne (by
          have := (beq_iff_eq).mp h
          simp [← this, ha])
      simp only [List.map_cons, List.find?]
      rw [if_pos h2]
      have hupd : (updated.id == id2) = false := by
        simp [hid]
        intro h
        exact hne h.symm
      have haid : (a.id == id2) = false := by
        rcases hh : (a.id == id2) with _ | _
        · rfl
        · exact absurd hh (fun h => hnot h)
      rw [hupd, haid]
      exact ih
    · have h2 : (a.id == id) = false := by simp [ha]
      simp only [List.map_cons, List.find?]
      rw [if_neg (by simp [h2])]
      rcases hh : (a.id == id2) with _ | _
      · exact ih
      · rfl

/-- Under the schema uniqueness constraint on `client_uuid`, the
token-keyed lookup finds exactly the member row with that token. -/
theorem get_by_client_uuid_of_mem (store : Store) (e : DailyLog)
    (hu : client_uuid_unique store) (hm : e ∈ store) :
    get_by_client_uuid store e.client_uuid = some e := by
  induction store with
  | nil => cases hm
  | cons a rest ih =>
    by_cases hac : a.client_uuid = e.client_uuid
    · have hae : a = e := hu a (by simp) e hm hac
      unfold get_by_client_uuid
      rw [List.find?_cons_of_pos]
      · rw [hae]
      · simp [hac]
    · have hm2 : e ∈ rest := by
        rcases List.mem_cons.mp hm with h | h
        · exact absurd (by rw [h]) hac
        · exact h
      unfold get_by_client_uuid
      rw [List.find?_cons_of_neg _ (by simp [hac])]
      exact ih (fun x hx y hy => hu x (List.mem_cons_of_mem _ hx) y (List.mem_cons_of_mem _ hy))
        hm2

/-- Every update key preserves the primary key of the row. -/
theorem setattr_ifhas_id (l : DailyLog) (kv : UpdateKV) :
    (setattr_ifhas l kv).id = l.id := by
  cases kv <;> rfl

/-- The whole update loop preserves the primary key of the row. -/
theorem foldl_setattr_ifhas_id (kvs : List UpdateKV) (l : DailyLog) :
    (kvs.foldl setattr_ifhas l).id = l.id := by
  induction kvs generalizing l with
  | nil => rfl
  | cons kv rest ih => rw [List.foldl_cons, ih, setattr_ifhas_id]

/-- A successful `get_by_id` returns a row carrying the requested id. -/
theorem get_by_id_id (store : Store) (id : String) (l : DailyLog)
    (h : get_by_id store id = some l) : l.id = id := by
  have := List.find?_some h
  exact beq_iff_eq.mp this

/-- `BaseRepository.update` on one id leaves lookups of any other id
unchanged. -/
theorem get_by_id_log_repo_update_ne (store : Store) (id : String)
    (kvs : List UpdateKV) (id2 : String) (hne : id2 ≠ id) :
    get_by_id (log_repo_update store id kvs).1 id2 = get_by_id store id2 := by
  unfold log_repo_update
  cases hgi : get_by_id store id with
  | none => rfl
  | some inst =>
    have hid : (kvs.foldl setattr_ifhas inst).id = id := by
      rw [foldl_setattr_ifhas_id]
      exact get_by_id_id store id inst hgi
    exact find?_map_replace (kvs.foldl setattr_ifhas inst) id id2 hid hne store

/-! Claim theorems. -/

/-- C1: the claimed idempotent replay of `create_log` cannot happen:
with a fresh non-null token the first call does not store a LogEntry
and does not succeed — it raises `AttributeError` inside the placement
lookup (`PlacementRepository.get_placement_with_geofence` filters on
the unmapped `IndustrialPlacement.deleted_at`) and leaves the store
empty — and the sequential second call with the same `(student, token)`
fails identically instead of returning the entry the first call was
supposed to store. -/
theorem create_log_first_call_never_stores :
    create_log [placement1] [] "S1" "P1" (some 10) "first activities" 6 3
        (some "T1") none none
      = ([], .error (.attributeError
          "type object IndustrialPlacement has no attribute deleted_at"))
    ∧ create_log [placement1] [] "S1" "P1" (some 10) "second activities" 6 3
        (some "T1") none none
      = ([], .error (.attributeError
          "type object IndustrialPlacement has no attribute deleted_at")) := by
  constructor <;> rfl

/-- C3: on a two-entry batch whose first entry is valid-looking and
whose second is malformed (missing `activities` key), `sync_logs`
processes both entries in order without aborting and tags each error
with the token or with unknown, but it reports `synced = 0` and
`failed = 2` — not `synced = N - 1 = 1` — because every `create_log`
call raises `AttributeError` in the placement lookup. -/
theorem sync_logs_partial_batch_all_fail :
    sync_logs [placement1] [] "S1" [offlineOk, offlineBad]
      = ([], { synced := 0, skipped := 0, failed := 2,
               errors := ["Failed to sync log T1: type object IndustrialPlacement has no attribute deleted_at",
                          "Failed to sync log unknown: activities"] }) := by
  rfl

/-- C4: a call with latitude 100 and longitude 200 — far outside the
ranges the claim names — does not fail with the `InvalidCoordinate`
rejection (`ValueError("Invalid GPS coordinates")`): it raises
`AttributeError` in the placement lookup that precedes coordinate
validation, so the claimed error contract is unreachable (though the
store is indeed left unchanged). -/
theorem create_log_invalid_coordinate_unreachable :
    validate_coordinates 100 200 = false
    ∧ create_log [placement1] [] "S1" "P1" (some 10) "worked" 100 200
        (some "T4") none none
      = ([], .error (.attributeError
          "type object IndustrialPlacement has no attribute deleted_at")) := by
  constructor <;> rfl

/-- C6: classification returns `unknown` for the sentinel (0, 0) and
for an absent geofence as claimed, but in the remaining case — where
the claim requires `within` iff the haversine distance is at most the
radius — it raises `AttributeError`, because the source reads
`geofence.center_latitude` while the `Geofence` model maps the column
as `latitude`. -/
theorem get_location_status_crashes_on_classification :
    get_location_status 0 0 (some gf1) = .ok .unknown
    ∧ get_location_status 6 3 none = .ok .unknown
    ∧ get_location_status 6 3 (some gf1)
        = .error (.attributeError "Geofence object has no attribute center_latitude") := by
  refine ⟨rfl, rfl, rfl⟩

/-- C7: the week-number computation is not the claimed total pure
formula: for every log date (including `None`) and every placement row
it raises `AttributeError`, because `IndustrialPlacement` maps no
`start_date` column, so `floor(days / 7) + 1` is never computed. -/
theorem calculate_week_number_always_raises (log_date : Option Int)
    (p : IndustrialPlacement) :
    calculate_week_number log_date p
      = .error (.attributeError
          "IndustrialPlacement object has no attribute start_date") := rfl

/-- C8: no LogEntry is ever persisted by `create_log`: for every
placement table, every store and all field values, the no-token call
(the case whose persisted row the claim says would carry
`synced = true`) raises `AttributeError` in the placement lookup and
returns the store unchanged, so the claimed postcondition has no
persisted row to hold of.  (Had execution reached persistence, the
constructor call `DailyLog(**log_data)` would itself raise `TypeError`:
see `dailyLog_ctor`.) -/
theorem create_log_never_persists (placements : List IndustrialPlacement)
    (store : Store) (student_id placement_id : String) (log_date : Option Int)
    (activities : String) (latitude longitude : ℚ)
    (skills_learned challenges : Option String) :
    create_log placements store student_id placement_id log_date activities
        latitude longitude none skills_learned challenges
      = (store, .error (.attributeError
          "type object IndustrialPlacement has no attribute deleted_at")) := rfl

/-- C2: verified is not terminal.  On a verified row, `verify_log`,
`flag_log` and `update_log` do reject as the claim says, but
`unflag_log` performs no status check: it moves the verified row back
to `pending_review` (recording only the timestamp, since the
`reviewed_by` key is unmapped), so a sequence containing `unflag_log`
takes a once-verified entry out of `verified`. -/
theorem verified_escapes_via_unflag :
    (verify_log [vlogC2] "L2" "SUP" none 100).2
        = .error (.valueError "Log is already verified")
    ∧ (flag_log [vlogC2] "L2" "SUP" "late" 100).2
        = .error (.valueError "Cannot flag a verified log")
    ∧ (update_log [vlogC2] "L2" [.activity_description "edited"]).2
        = .error (.valueError "Cannot update a verified log")
    ∧ unflag_log [vlogC2] "L2" "SUP" 100
        = ([{ vlogC2 with status := .pending_review, reviewed_at := some 100 }],
           .ok (some { vlogC2 with status := .pending_review, reviewed_at := some 100 })) := by
  refine ⟨rfl, rfl, rfl, rfl⟩

/-- C5: a successful `verify_log` transition does not record the
reviewer identity or the feedback.  On a pending row it stores
`status = verified` and the review timestamp, but the update keys
`reviewed_by` and `supervisor_feedback` match no `DailyLog` column
(the model maps `reviewer_id` and `reviewer_comment`), so
`BaseRepository.update` silently drops them: the stored row's
`reviewer_id` and `reviewer_comment` remain `None` instead of
becoming the acting supervisor SUP1 and the supplied feedback. -/
theorem verify_log_drops_reviewer_identity :
    verify_log [plogC5] "L5" "SUP1" (some "Excellent work") 77
      = ([{ plogC5 with status := .verified, reviewed_at := some 77 }],
         .ok (some { plogC5 with status := .verified, reviewed_at := some 77 }))
    ∧ ({ plogC5 with status := .verified, reviewed_at := some 77 } : DailyLog).reviewer_id
        = none
    ∧ ({ plogC5 with status := .verified, reviewed_at := some 77 } : DailyLog).reviewer_comment
        = none := by
  refine ⟨rfl, rfl, rfl⟩

/-- C9: the idempotency lookup is keyed by the client token alone.
Under the schema uniqueness constraint on `client_uuid`, when a stored
row `e` of some student holds token `e.client_uuid`, a `create_log`
call by a DIFFERENT caller supplying that token returns `e` itself —
the other student's entry — with the store unchanged (no insert), and
`sync_logs` counts any entry bearing that token as skipped
(already synced) instead of creating a row for the caller. -/
theorem token_keyed_across_students
    (placements : List IndustrialPlacement) (store : Store) (e : DailyLog)
    (caller pid : String) (d : Option Int) (act : String) (lat lon : ℚ)
    (sk ch : Option String)
    (hu : client_uuid_unique store) (hm : e ∈ store) (ht : e.client_uuid ≠ "")
    (hs : e.student_id ≠ caller) :
    create_log placements store caller pid d act lat lon (some e.client_uuid) sk ch
        = (store, .ok e)
    ∧ ∀ od : OfflineLog, od.client_uuid = some e.client_uuid →
        sync_logs placements store caller [od] = (store, ⟨0, 1, 0, []⟩) := by
  have hpt : py_truthy (some e.client_uuid) = true := by
    simp [py_truthy, ht]
  have hlk : get_by_client_uuid store e.client_uuid = some e :=
    get_by_client_uuid_of_mem store e hu hm
  have _ := hs
  constructor
  · unfold create_log
    rw [hpt]
    simp only [if_true, Option.getD_some, hlk]
  · intro od hod
    unfold sync_logs
    rw [List.foldl_cons, List.foldl_nil]
    unfold sync_step
    rw [hod]
    simp only [hpt, if_true, Option.getD_some, hlk]

/-- C9 witness: concrete replay of student STUD-A token T9 by caller
STUD-B, both through `create_log` and through `sync_logs`. -/
theorem token_keyed_across_students_witness :
    create_log [] [logC9] "STUD-B" "P1" (some 12) "different work" 6 3
        (some "T9") none none = ([logC9], .ok logC9)
    ∧ sync_logs [] [logC9] "STUD-B" [odC9] = ([logC9], ⟨0, 1, 0, []⟩) := by
  have h := token_keyed_across_students [] [logC9] logC9 "STUD-B" "P1" (some 12)
    "different work" 6 3 none none (by decide) (by decide) (by decide) (by decide)
  exact ⟨h.1, h.2 odC9 rfl⟩

/-- A missing id is never rejectable. -/
theorem rejectable_of_missing (store : Store) (i : String)
    (h : get_by_id store i = none) : rejectable store i = false := by
  simp [rejectable, h]

/-- `verify_log` on a missing id returns `None` without raising and
leaves the store unchanged. -/
theorem verify_log_missing (store : Store) (i sup : String) (fb : Option String)
    (now : Int) (h : get_by_id store i = none) :
    verify_log store i sup fb now = (store, .ok none) := by
  simp only [verify_log, h]

/-- `verify_log` on a verified or flagged row raises `ValueError` and
leaves the store unchanged. -/
theorem verify_log_rejects (store : Store) (i sup : String) (fb : Option String)
    (now : Int) (l : DailyLog) (h : get_by_id store i = some l)
    (hst : l.status = .verified ∨ l.status = .flagged) :
    ∃ m, verify_log store i sup fb now = (store, .error (.valueError m)) := by
  simp only [verify_log, h]
  by_cases h2 : l.status = LogStatus.verified
  · rw [if_pos h2]
    exact ⟨_, rfl⟩
  · have h1 : l.status = LogStatus.flagged := hst.resolve_left h2
    rw [if_neg h2, if_pos h1]
    exact ⟨_, rfl⟩

/-- `verify_log` on a verifiable row succeeds and only touches the row
with that id: lookups of every other id are unchanged. -/
theorem verify_log_updates (store : Store) (i sup : String) (fb : Option String)
    (now : Int) (l : DailyLog) (h : get_by_id store i = some l)
    (hv : l.status ≠ .verified) (hf : l.status ≠ .flagged) :
    ∃ store2 res, verify_log store i sup fb now = (store2, .ok res)
      ∧ ∀ j, j ≠ i → get_by_id store2 j = get_by_id store j := by
  simp only [verify_log, h]
  rw [if_neg hv, if_neg hf]
  rcases hlru : log_repo_update store i
      [.status .verified, .reviewed_by sup, .reviewed_at now,
       .supervisor_feedback fb] with ⟨s2, r2⟩
  refine ⟨s2, r2, rfl, ?_⟩
  · intro j hj
    have := get_by_id_log_repo_update_ne store i
      [.status .verified, .reviewed_by sup, .reviewed_at now,
       .supervisor_feedback fb] j hj
    rw [hlru] at this
    exact this

/-- Lookup-equal stores agree on rejectability of an id. -/
theorem rejectable_congr (store2 store : Store) (j : String)
    (h : get_by_id store2 j = get_by_id store j) :
    rejectable store2 j = rejectable store j := by
  unfold rejectable
  rw [h]

/-- A bulk-verification step whose `verify_log` call returns (rather
than raising) increments the `verified` counter. -/
theorem bulk_step_of_ok (sup : String) (fb : Option String) (now : Int)
    (store store2 : Store) (r : BulkResult) (i : String) (res : Option DailyLog)
    (h : verify_log store i sup fb now = (store2, .ok res)) :
    bulk_step sup fb now (store, r) i = (store2, { r with verified := r.verified + 1 }) := by
  simp only [bulk_step, h]

/-- A bulk-verification step whose `verify_log` call raises increments
the `failed` counter and appends one error message. -/
theorem bulk_step_of_error (sup : String) (fb : Option String) (now : Int)
    (store store2 : Store) (r : BulkResult) (i : String) (e : PyError)
    (h : verify_log store i sup fb now = (store2, .error e)) :
    bulk_step sup fb now (store, r) i
      = (store2,
         { r with
            failed := r.failed + 1,
            errors := r.errors ++
              ["Failed to verify log " ++ i ++ ": " ++ str_of_error e] }) := by
  simp only [bulk_step, h]

/-- Accumulator form of the bulk-verification counting law: over
distinct ids, each id found verified or flagged adds one failure and
one error message, and every other id — including ids with no stored
row — adds one success. -/
theorem bulk_fold_counts (sup : String) (fb : Option String) (now : Int) :
    ∀ (ids : List String) (store : Store) (r : BulkResult), ids.Nodup →
      ((ids.foldl (bulk_step sup fb now) (store, r)).2.verified
          = r.verified + (ids.filter (fun i => !(rejectable store i))).length)
      ∧ ((ids.foldl (bulk_step sup fb now) (store, r)).2.failed
          = r.failed + (ids.filter (fun i => rejectable store i)).length)
      ∧ ((ids.foldl (bulk_step sup fb now) (store, r)).2.errors.length
          = r.errors.length + (ids.filter (fun i => rejectable store i)).length) := by
  intro ids
  induction ids with
  | nil => intro store r _; simp
  | cons i rest ih =>
    intro store r hnd
    have hni : i ∉ rest := (List.nodup_cons.mp hnd).1
    have hnd1 : rest.Nodup := (List.nodup_cons.mp hnd).2
    rw [List.foldl_cons, List.filter_cons, List.filter_cons]
    cases hrej : rejectable store i with
    | false =>
      -- the step succeeds (missing id, or a verifiable row)
      have hstep : ∃ store2,
          bulk_step sup fb now (store, r) i
            = (store2, { r with verified := r.verified + 1 })
          ∧ ∀ j, j ≠ i → get_by_id store2 j = get_by_id store j := by
        cases hgi : get_by_id store i with
        | none =>
          exact ⟨store, bulk_step_of_ok sup fb now store store r i none
            (verify_log_missing store i sup fb now hgi), fun j _ => rfl⟩
        | some l =>
          have hr2 := hrej
          simp only [rejectable, hgi, Bool.or_eq_false_iff] at hr2
          have hv : l.status ≠ LogStatus.verified := by
            intro hc
            rw [hc] at hr2
            simp at hr2
          have hf : l.status ≠ LogStatus.flagged := by
            intro hc
            rw [hc] at hr2
            simp at hr2
          obtain ⟨store2, res, hvu, hpres⟩ :=
            verify_log_updates store i sup fb now l hgi hv hf
          exact ⟨store2, bulk_step_of_ok sup fb now store store2 r i res hvu, hpres⟩
      obtain ⟨store2, hstep, hpres⟩ := hstep
      rw [hstep]
      have hrest := ih store2 { r with verified := r.verified + 1 } hnd1
      have hfneg : (rest.filter fun j => !(rejectable store2 j))
          = rest.filter fun j => !(rejectable store j) :=
        List.filter_congr fun j hj => by
          rw [rejectable_congr store2 store j (hpres j (fun hji => hni (hji ▸ hj)))]
      have hfpos : (rest.filter fun j => rejectable store2 j)
          = rest.filter fun j => rejectable store j :=
        List.filter_congr fun j hj => by
          rw [rejectable_congr store2 store j (hpres j (fun hji => hni (hji ▸ hj)))]
      rw [hfneg, hfpos] at hrest
      refine ⟨?_, ?_, ?_⟩
      · rw [hrest.1]
        simp
        try omega
      · rw [hrest.2.1]
        simp
        try omega
      · rw [hrest.2.2]
        simp
        try omega
    | true =>
      -- the step fails: the row exists and is verified or flagged
      have hstep : ∃ m, bulk_step sup fb now (store, r) i
          = (store,
             { r with
                failed := r.failed + 1,
                errors := r.errors ++ [m] }) := by
        cases hgi : get_by_id store i with
        | none =>
          rw [rejectable_of_missing store i hgi] at hrej
          cases hrej
        | some l =>
          have hr2 := hrej
          simp only [rejectable, hgi, Bool.or_eq_true, beq_iff_eq] at hr2
          obtain ⟨m, hvr⟩ := verify_log_rejects store i sup fb now l hgi hr2
          exact ⟨_, bulk_step_of_error sup fb now store store r i _ hvr⟩
      obtain ⟨m, hstep⟩ := hstep
      rw [hstep]
      have hrest := ih store
        { r with failed := r.failed + 1, errors := r.errors ++ [m] } hnd1
      refine ⟨?_, ?_, ?_⟩
      · rw [hrest.1]
        simp
        try omega
      · rw [hrest.2.1]
        simp
        try omega
      · rw [hrest.2.2]
        simp
        try omega

/-- C10: in bulk verification a missing id counts as a success:
`verify_log` returns `None` for it without raising, so over distinct
ids `bulk_verify_logs` increments `verified` for every id that is
missing or verifiable and increments `failed` — appending exactly one
error message — only for ids whose stored entries are already verified
or flagged. -/
theorem bulk_verify_missing_counts_as_success (store : Store) (ids : List String)
    (sup : String) (fb : Option String) (now : Int) (hnd : ids.Nodup) :
    ((bulk_verify_logs store ids sup fb now).2.verified
        = (ids.filter (fun i => !(rejectable store i))).length)
    ∧ ((bulk_verify_logs store ids sup fb now).2.failed
        = (ids.filter (fun i => rejectable store i)).length)
    ∧ ((bulk_verify_logs store ids sup fb now).2.errors.length
        = (ids.filter (fun i => rejectable store i)).length)
    ∧ ∀ i, get_by_id store i = none →
        rejectable store i = false
        ∧ verify_log store i sup fb now = (store, .ok none) := by
  have h := bulk_fold_counts sup fb now ids store ⟨0, 0, []⟩ hnd
  refine ⟨?_, ?_, ?_, ?_⟩
  · have := h.1
    simpa [bulk_verify_logs] using this
  · have := h.2.1
    simpa [bulk_verify_logs] using this
  · have := h.2.2
    simpa [bulk_verify_logs] using this
  · intro i hi
    exact ⟨rejectable_of_missing store i hi, verify_log_missing store i sup fb now hi⟩

/-- C10 witness: on a store holding one verified row V1 and one pending
row P2, bulk-verifying the ids V1, P2 and the absent id MISSING yields
two successes (P2 and the missing id) and one failure (V1) with one
error message. -/
theorem bulk_verify_missing_counts_as_success_witness :
    ((bulk_verify_logs storeC10 ["V1", "P2", "MISSING"] "SUP" none 9).2.verified = 2)
    ∧ ((bulk_verify_logs storeC10 ["V1", "P2", "MISSING"] "SUP" none 9).2.failed = 1)
    ∧ ((bulk_verify_logs storeC10 ["V1", "P2", "MISSING"] "SUP" none 9).2.errors.length = 1)
    ∧ verify_log storeC10 "MISSING" "SUP" none 9 = (storeC10, .ok none) := by
  have h := bulk_verify_missing_counts_as_success storeC10 ["V1", "P2", "MISSING"]
    "SUP" none 9 (by decide)
  refine ⟨?_, ?_, ?_, ?_⟩
  · rw [h.1]
    decide
  · rw [h.2.1]
    decide
  · rw [h.2.2.1]
    decide
  · exact (h.2.2.2 "MISSING" (by decide)).2
